import Mathlib

/-!
Verification of the devopstemplate installation engine
(`devopstemplate/template.py`) against its specification.

The development shallowly embeds the engine: the filesystem is an explicit
state (an association list of file paths to contents plus a list of created
directories), every method of `DevOpsTemplate` becomes a pure function that
threads this state, and Python exceptions become `Except` values that carry
the filesystem state at the moment the exception propagates (partial writes
persist).  The Jinja2 templating library is embedded by its observable
semantics: templates are token lists, the default `Undefined` renders as the
empty string when printed and raises when operated on, `select_autoescape`
is translated clause by clause, and `Template.stream(...).dump(fh)` writes
chunk by chunk so that an error mid-render leaves the prefix in the file.
-/

namespace DevOpsTemplateSpec

/-- A Jinja2 render context: mapping from variable name to string value
(`context` dictionaries in `template.py`). -/
abbrev Context := List (String × String)

/-- First-match association-list lookup (Python `dict` access order of a
well-formed dict; later `setFile` entries shadow earlier ones). -/
def lookupStr {α : Type} : List (String × α) → String → Option α
  | [], _ => none
  | kv :: rest, k => if kv.1 = k then some kv.2 else lookupStr rest k

/-- Contents of a file in the modelled filesystem.  `json` is the result of
`json.dump` of a configuration mapping (deserialisation is exact on this
constructor), `text` is the result of a plain text write. -/
inductive FileContent where
  | text (s : String)
  | json (cfg : Context)
  deriving DecidableEq, Repr

/-- The filesystem state: file paths with their contents, plus directories
created with `os.makedirs`.  A path `exists` if it names a file or a
directory (`os.path.exists`). -/
structure FS where
  files : List (String × FileContent)
  dirs : List String
  deriving DecidableEq, Repr

/-- `os.path.exists`: the path names a file or a created directory. -/
def fsExists (fs : FS) (p : String) : Bool :=
  fs.files.any (fun kv => decide (kv.1 = p)) || fs.dirs.any (fun d => decide (d = p))

/-- Read a file's content (`open(p, 'r')` + read), `none` when absent. -/
def getFile (fs : FS) (p : String) : Option FileContent :=
  lookupStr fs.files p

/-- `open(p, 'w')` + write: create or replace the file at `p`.  The new
entry shadows any previous entry for the same path. -/
def setFile (fs : FS) (p : String) (c : FileContent) : FS :=
  { fs with files := (p, c) :: fs.files }

/-- `json.load` of a file written with `json.dump`: exact round trip on the
`json` constructor, failure on anything else. -/
def jsonLoad : FileContent → Option Context
  | FileContent.json cfg => some cfg
  | FileContent.text _ => none

/-- Deserialize the file at `p` as JSON. -/
def jsonLoadFile (fs : FS) (p : String) : Option Context :=
  match getFile fs p with
  | some c => jsonLoad c
  | none => none

/-- Path separator. -/
def slashChar : Char := Char.ofNat 47

/-- `str.startswith` on strings (kernel-computable reimplementation of the
library function via character lists). -/
def strStartsWith (s pre : String) : Bool :=
  pre.data.isPrefixOf s.data

/-- `str.endswith` on strings (kernel-computable reimplementation). -/
def strEndsWith (s post : String) : Bool :=
  post.data.reverse.isPrefixOf s.data.reverse

/-- ASCII lower-casing of one character. -/
def charLower (c : Char) : Char :=
  if 65 <= c.toNat ∧ c.toNat <= 90 then Char.ofNat (c.toNat + 32) else c

/-- `str.lower` (kernel-computable reimplementation, ASCII range). -/
def strToLower (s : String) : String :=
  String.mk (s.data.map charLower)

/-- Whitespace test used when trimming placeholder names. -/
def isSpaceChar (c : Char) : Bool :=
  decide (c = Char.ofNat 32) || decide (c = Char.ofNat 9) ||
    decide (c = Char.ofNat 10) || decide (c = Char.ofNat 13)

/-- Whitespace trimming, as the Jinja2 lexer does around placeholder
expressions (kernel-computable reimplementation). -/
def strTrim (s : String) : String :=
  String.mk (((s.data.dropWhile isSpaceChar).reverse.dropWhile isSpaceChar).reverse)

/-- `posixpath.join` for two components: an absolute second component
replaces the first; otherwise a separator is inserted unless the first part
is empty or already ends with the separator. -/
def ospathJoin (a b : String) : String :=
  if strStartsWith b "/" then b
  else if a = "" then b
  else if strEndsWith a "/" then a ++ b
  else a ++ "/" ++ b

/-- `posixpath.dirname`: everything up to the last separator, with trailing
separators stripped unless the result consists only of separators. -/
def dirname (p : String) : String :=
  let cs := p.data
  let head := (cs.reverse.dropWhile (fun c => decide (c ≠ slashChar))).reverse
  let stripped :=
    if head ≠ [] ∧ head.any (fun c => decide (c ≠ slashChar)) then
      (head.reverse.dropWhile (fun c => decide (c = slashChar))).reverse
    else head
  String.mk stripped

/-- `os.makedirs` helper: create the directory and, recursively, any missing
parent (fuel-recursive; the fuel is the path length, which bounds the
parent-chain depth). -/
def makedirsFuel : Nat → FS → String → FS
  | 0, fs, p => { fs with dirs := p :: fs.dirs }
  | fuel + 1, fs, p =>
    let head := dirname p
    let fs1 :=
      if head ≠ "" ∧ head ≠ p ∧ fsExists fs head = false then
        makedirsFuel fuel fs head
      else fs
    { fs1 with dirs := p :: fs1.dirs }

/-- `os.makedirs(p)`: create `p` including missing parent directories. -/
def makedirs (fs : FS) (p : String) : FS :=
  makedirsFuel p.length fs p

/-- Errors raised by the engine (Python exception kinds).
`SkipFileError` is not listed here: it is an internal control-flow signal
that never escapes `__render`/`cookiecutter` (modelled by the three-way
`CheckResult`). -/
inductive DTErr where
  /-- `KeyError` from `self.__template_dict[template_component]`. -/
  | unknownComponent (name : String)
  /-- `FileNotFoundError` from the `pkg.exists` check in `__render`. -/
  | templateNotFound (path : String)
  /-- `FileExistsError` from `__check_project_file`. -/
  | targetExists (path : String)
  /-- Jinja2 `UndefinedError`: an operation applied to an undefined name. -/
  | undefinedVariable (name : String)
  /-- Python `IndexError` while evaluating a template expression. -/
  | indexError (name : String)
  /-- `FileNotFoundError` from `open(projectdir/Makefile, 'r+')`. -/
  | makefileMissing (path : String)
  deriving DecidableEq, Repr

/-- One chunk of a parsed Jinja2 template.  `lit` is literal template text,
`var` is an expression printing a variable, and `varIndex` is an expression
indexing into a variable (e.g. `name[0]`) — the smallest expression form
whose evaluation raises on an undefined name, used to model templates whose
rendering can fail mid-stream. -/
inductive Tok where
  | lit (s : String)
  | var (name : String)
  | varIndex (name : String)
  deriving DecidableEq, Repr

/-- markupsafe character escaping used by Jinja2 autoescaping (characters
`&`, `<`, `>`, `"`, the apostrophe). -/
def htmlEscapeChar (c : Char) : String :=
  if c = Char.ofNat 38 then "&amp;"
  else if c = Char.ofNat 60 then "&lt;"
  else if c = Char.ofNat 62 then "&gt;"
  else if c = Char.ofNat 34 then "&#34;"
  else if c = Char.ofNat 39 then "&#39;"
  else String.singleton c

/-- markupsafe `escape` on a string. -/
def htmlEscape (s : String) : String :=
  String.join (s.data.map htmlEscapeChar)

/-- Apply HTML escaping when the environment's autoescape flag is on.
Only expression output is escaped; literal template text never is. -/
def escapeIf (esc : Bool) (s : String) : String :=
  if esc then htmlEscape s else s

/-- Evaluate one template chunk under Jinja2's default `Undefined`:
printing an undefined name yields the empty string, while indexing an
undefined name raises `UndefinedError`. -/
def evalTok (esc : Bool) (ctx : Context) : Tok → Except DTErr String
  | Tok.lit s => Except.ok s
  | Tok.var n =>
    match lookupStr ctx n with
    | some v => Except.ok (escapeIf esc v)
    | none => Except.ok ""
  | Tok.varIndex n =>
    match lookupStr ctx n with
    | some v =>
      match v.data with
      | [] => Except.error (DTErr.indexError n)
      | c :: _ => Except.ok (escapeIf esc (String.singleton c))
    | none => Except.error (DTErr.undefinedVariable n)

/-- `template.stream(**context).dump(fh)`: evaluate the chunks in order,
writing each one as it is produced.  The first error stops the stream; the
returned string is exactly what reached the sink (the prefix before the
failing chunk). -/
def streamRender (esc : Bool) (ctx : Context) : List Tok → String × Option DTErr
  | [] => ("", none)
  | tok :: rest =>
    match evalTok esc ctx tok with
    | Except.ok s =>
      let step := streamRender esc ctx rest
      (s ++ step.1, step.2)
    | Except.error e => ("", some e)

/-- `jinja2.utils.select_autoescape` translated clause by clause: `None`
template names get `default_for_string`, names ending in an enabled
extension get `true`, names ending in a disabled extension get `false`,
everything else gets `defaultOther`. -/
def selectAutoescape (enabledExtensions disabledExtensions : List String)
    (defaultForString defaultOther : Bool) (templateName : Option String) : Bool :=
  match templateName with
  | none => defaultForString
  | some n =>
    let nl := strToLower n
    if enabledExtensions.any (fun ext => strEndsWith nl ("." ++ ext)) then true
    else if disabledExtensions.any (fun ext => strEndsWith nl ("." ++ ext)) then false
    else defaultOther

/-- The autoescape policy installed by `DevOpsTemplate.__init__`:
`select_autoescape(default=True)`, i.e. enabled extensions `html`, `htm`,
`xml`, no disabled extensions, `default_for_string=True`, `default=True`. -/
def autoescapePolicy (templateName : Option String) : Bool :=
  selectAutoescape ["html", "htm", "xml"] [] true true templateName

/-- The opening brace character of a Jinja2 placeholder. -/
def braceOpen : Char := Char.ofNat 123

/-- The closing brace character of a Jinja2 placeholder. -/
def braceClose : Char := Char.ofNat 125

/-- Split a character list at the first closing `\x7d\x7d` delimiter,
returning the characters before it and the remainder after it. -/
def splitClose : List Char → Option (List Char × List Char)
  | [] => none
  | [_] => none
  | c1 :: c2 :: rest =>
    if c1 = braceClose ∧ c2 = braceClose then some ([], rest)
    else
      match splitClose (c2 :: rest) with
      | some (inside, remainder) => some (c1 :: inside, remainder)
      | none => none

/-- Parse a Jinja2 template string into chunks: `\x7b\x7b name \x7d\x7d`
becomes a `var` chunk (whitespace trimmed, as in Jinja2), everything else
is literal text.  Fuel-recursive on the character count. -/
def parseAux : Nat → List Char → List Tok
  | 0, _ => []
  | _, [] => []
  | _ + 1, [c] => [Tok.lit (String.singleton c)]
  | fuel + 1, c1 :: c2 :: rest =>
    if c1 = braceOpen ∧ c2 = braceOpen then
      match splitClose rest with
      | some (inside, remainder) =>
        Tok.var (strTrim (String.mk inside)) :: parseAux fuel remainder
      | none => [Tok.lit (String.mk (c1 :: c2 :: rest))]
    else Tok.lit (String.singleton c1) :: parseAux fuel (c2 :: rest)

/-- Parse a template string into its chunk list. -/
def parseToks (s : String) : List Tok :=
  parseAux s.data.length s.data

/-- `jinja2.Template(s).render(**ctx)` for path templates: a standalone
`Template` has `autoescape=False`; rendering either produces the full
output or raises. -/
def jinjaRenderString (ctx : Context) (s : String) : Except DTErr String :=
  match streamRender false ctx (parseToks s) with
  | (out, none) => Except.ok out
  | (_, some e) => Except.error e

/-- The bundled content templates (`devopstemplate/template/...` package
data): a content template per catalog entry, keyed by its un-rendered path
template string, already parsed into chunks. -/
abbrev PkgTemplates := List (String × List Tok)

/-- The engine session state set up by `DevOpsTemplate.__init__`: project
directory, the three policy flags, and the component catalog loaded from
`template.json` (component name to ordered list of path templates). -/
structure DevOpsTemplate where
  projectdir : String
  overwrite : Bool
  skip : Bool
  dry_run : Bool
  template_dict : List (String × List String)
  deriving DecidableEq, Repr

/-- The constant `self.__template_dname` set in `__init__`. -/
def templateDname : String := "template"

/-- Decision of the conflict check, replacing `__check_project_file`'s
exception-based signalling: `proceed` is the `return True` path, `skipFile`
is `SkipFileError`, `conflict` is `FileExistsError`. -/
inductive CheckResult where
  | proceed
  | skipFile
  | conflict
  deriving DecidableEq, Repr

/-- `DevOpsTemplate.__check_project_file` (template.py lines 273-293):
skip an existing file when the skip flag is set, fail on an existing file
when overwriting is not allowed, proceed otherwise. -/
def checkProjectFile (t : DevOpsTemplate) (fs : FS) (project_fpath : String) : CheckResult :=
  if fsExists fs project_fpath && t.skip then CheckResult.skipFile
  else if fsExists fs project_fpath && !t.overwrite then CheckResult.conflict
  else CheckResult.proceed

/-- Per-file outcome reported (logged) by `__render` for one target. -/
inductive Outcome where
  | written
  | skipped
  deriving DecidableEq, Repr

/-- `DevOpsTemplate.__mkdir` (template.py lines 219-232): create a
directory inside the project unless it already exists, gated by the
dry-run flag. -/
def mkdirOp (t : DevOpsTemplate) (fs : FS) (project_dname : String) : FS :=
  let project_dpath := ospathJoin t.projectdir project_dname
  if fsExists fs project_dpath then fs
  else if t.dry_run then fs
  else makedirs fs project_dpath

/-- `DevOpsTemplate.__render` (template.py lines 234-271): verify the
bundled template exists, run the conflict check, and unless dry-running
create missing parent directories and stream the rendered content into the
target file opened with mode `'w'`.  The error value carries the
filesystem as left behind: a mid-stream rendering error leaves the already
produced prefix in the target file. -/
def renderFile (pkg : PkgTemplates) (t : DevOpsTemplate) (pkg_fname project_fname : String)
    (ctx : Context) (fs : FS) : Except (FS × DTErr) (FS × Outcome) :=
  let pkg_fpath := ospathJoin templateDname pkg_fname
  match lookupStr pkg pkg_fname with
  | none => Except.error (fs, DTErr.templateNotFound pkg_fpath)
  | some toks =>
    let project_fpath := ospathJoin t.projectdir project_fname
    match checkProjectFile t fs project_fpath with
    | CheckResult.skipFile => Except.ok (fs, Outcome.skipped)
    | CheckResult.conflict => Except.error (fs, DTErr.targetExists project_fpath)
    | CheckResult.proceed =>
      if t.dry_run then Except.ok (fs, Outcome.written)
      else
        let parent_dname := dirname project_fpath
        let fs1 := if fsExists fs parent_dname then fs else makedirs fs parent_dname
        let esc := autoescapePolicy (some pkg_fname)
        let step := streamRender esc ctx toks
        let fs2 := setFile fs1 project_fpath (FileContent.text step.1)
        match step.2 with
        | some e => Except.error (fs2, e)
        | none => Except.ok (fs2, Outcome.written)

/-- The loop body of `DevOpsTemplate.__install` (template.py lines
214-217): for each path template, render the target path with the context
and render the content template into it, collecting per-file outcomes. -/
def installFiles (pkg : PkgTemplates) (t : DevOpsTemplate) (ctx : Context) :
    List String → FS → Except (FS × DTErr) (FS × List Outcome)
  | [], fs => Except.ok (fs, [])
  | template_fpath :: rest, fs =>
    match jinjaRenderString ctx template_fpath with
    | Except.error e => Except.error (fs, e)
    | Except.ok project_fpath =>
      match renderFile pkg t template_fpath project_fpath ctx fs with
      | Except.error e => Except.error e
      | Except.ok (fs1, oc) =>
        match installFiles pkg t ctx rest fs1 with
        | Except.error e => Except.error e
        | Except.ok (fs2, ocs) => Except.ok (fs2, oc :: ocs)

/-- `DevOpsTemplate.__install` (template.py lines 203-217): look up the
component's file list in the catalog (`KeyError` when absent) and install
each file. -/
def installComponent (pkg : PkgTemplates) (t : DevOpsTemplate) (template_component : String)
    (ctx : Context) (fs : FS) : Except (FS × DTErr) (FS × List Outcome) :=
  match lookupStr t.template_dict template_component with
  | none => Except.error (fs, DTErr.unknownComponent template_component)
  | some file_list => installFiles pkg t ctx file_list fs

/-- A sequence of `__install` calls for a list of components, as performed
by the three project operations, concatenating the per-file outcomes. -/
def installComponents (pkg : PkgTemplates) (t : DevOpsTemplate) :
    List String → Context → FS → Except (FS × DTErr) (FS × List Outcome)
  | [], _, fs => Except.ok (fs, [])
  | comp :: rest, ctx, fs =>
    match installComponent pkg t comp ctx fs with
    | Except.error e => Except.error e
    | Except.ok (fs1, ocs) =>
      match installComponents pkg t rest ctx fs1 with
      | Except.error e => Except.error e
      | Except.ok (fs2, ocs') => Except.ok (fs2, ocs ++ ocs')

/-- `DevOpsTemplate.__init__` (template.py lines 28-53): record the session
configuration and catalog, then ensure the project base directory exists
via `self.__mkdir(projectdirectory)` — which joins the project directory
onto itself, since `self.__projectdir` was just set to `projectdirectory`. -/
def devOpsTemplateInit (projectdirectory : String)
    (overwrite_exists skip_exists dr : Bool)
    (template_dict : List (String × List String)) (fs : FS) : DevOpsTemplate × FS :=
  let t : DevOpsTemplate :=
    { projectdir := projectdirectory
      overwrite := overwrite_exists
      skip := skip_exists
      dry_run := dr
      template_dict := template_dict }
  (t, mkdirOp t fs projectdirectory)

/-- `DevOpsTemplate.__configure_makefile` (template.py lines 295-310):
build the variable mapping (`DOCKERSONAR` set from `use_sonar`), open the
installed Makefile with mode `'r+'` (`FileNotFoundError` when absent) and
rewrite it in place.  The rewriter itself (`MakefileTemplate`, an external
collaborator of this module) is passed in as `rewrite`.  Note: the method
performs the write unconditionally, without consulting the dry-run flag. -/
def configureMakefile (rewrite : List (String × String) → FileContent → FileContent)
    (t : DevOpsTemplate) (fs : FS) (use_sonar : Bool) : Except (FS × DTErr) FS :=
  let var_value_dict := [("DOCKERSONAR", if use_sonar then "True" else "False")]
  let makefile_path := ospathJoin t.projectdir "Makefile"
  match getFile fs makefile_path with
  | none => Except.error (fs, DTErr.makefileMissing makefile_path)
  | some content => Except.ok (setFile fs makefile_path (rewrite var_value_dict content))

/-- The configuration flags read by `DevOpsTemplate.create`, together with
the full mapping that is passed on as the render context. -/
structure CreateConfig where
  context : Context
  add_scripts_dir : Bool
  add_docs_dir : Bool
  no_gitignore_file : Bool
  no_readme_file : Bool
  no_sonar : Bool
  deriving DecidableEq, Repr

/-- The components installed by `create`, in program order: the fixed base
set followed by the flag-gated optional components. -/
def createComponentList (cfg : CreateConfig) : List String :=
  ["src", "tests", "make", "setuptools", "docker"]
    ++ (if cfg.no_gitignore_file then [] else ["git"])
    ++ (if cfg.no_readme_file then [] else ["readme"])
    ++ (if cfg.no_sonar then [] else ["sonar"])

/-- `DevOpsTemplate.create` (template.py lines 55-98): create the optional
empty directories, install the base and flag-gated components, and finish
with the Makefile reconfiguration parameterised by the sonar flag. -/
def create (rewrite : List (String × String) → FileContent → FileContent)
    (pkg : PkgTemplates) (t : DevOpsTemplate) (cfg : CreateConfig) (fs : FS) :
    Except (FS × DTErr) (FS × List Outcome) :=
  let fs1 := if cfg.add_scripts_dir then mkdirOp t fs "scripts" else fs
  let fs2 := if cfg.add_docs_dir then mkdirOp t fs1 "docs" else fs1
  match installComponents pkg t (createComponentList cfg) cfg.context fs2 with
  | Except.error e => Except.error e
  | Except.ok (fs3, ocs) =>
    match configureMakefile rewrite t fs3 (!cfg.no_sonar) with
    | Except.error e => Except.error e
    | Except.ok fs4 => Except.ok (fs4, ocs)

/-- The configuration flags read by `DevOpsTemplate.manage`. -/
structure ManageConfig where
  context : Context
  add_scripts_dir : Bool
  add_docs_dir : Bool
  add_gitignore_file : Bool
  add_readme_file : Bool
  add_sonar : Bool
  deriving DecidableEq, Repr

/-- `DevOpsTemplate.manage` (template.py lines 170-201): flag-gated
directories and components on an existing project; adding sonar support
triggers the Makefile reconfiguration, forced on. -/
def manage (rewrite : List (String × String) → FileContent → FileContent)
    (pkg : PkgTemplates) (t : DevOpsTemplate) (cfg : ManageConfig) (fs : FS) :
    Except (FS × DTErr) (FS × List Outcome) :=
  let fs1 := if cfg.add_scripts_dir then mkdirOp t fs "scripts" else fs
  let fs2 := if cfg.add_docs_dir then mkdirOp t fs1 "docs" else fs1
  let comps :=
    (if cfg.add_gitignore_file then ["git"] else [])
      ++ (if cfg.add_readme_file then ["readme"] else [])
      ++ (if cfg.add_sonar then ["sonar"] else [])
  match installComponents pkg t comps cfg.context fs2 with
  | Except.error e => Except.error e
  | Except.ok (fs3, ocs) =>
    if cfg.add_sonar then
      match configureMakefile rewrite t fs3 true with
      | Except.error e => Except.error e
      | Except.ok fs4 => Except.ok (fs4, ocs)
    else Except.ok (fs3, ocs)

/-- The literal name of the synthetic cookiecutter project subdirectory
(`cookiecutter_project_dname` in template.py line 144): the un-rendered
path-variable placeholder for `project_slug`. -/
def cookiecutterDirname : String := "\x7b\x7bcookiecutter.project_slug\x7d\x7d/"

/-- The fixed component list installed by `cookiecutter` (template.py lines
156-163). -/
def cookiecutterComponents : List String :=
  ["src", "tests", "make", "setuptools", "git", "readme", "docker", "sonar"]

/-- The marker expression `'\x7b\x7bcookiecutter.%s\x7d\x7d' % key`
substituted for every configuration value in cookiecutter mode. -/
def cookiecutterMarker (key : String) : String :=
  "\x7b\x7bcookiecutter." ++ key ++ "\x7d\x7d"

/-- The transformed context built in template.py lines 153-154: every
configuration value is replaced by the marker embedding its own key. -/
def cookiecutterTransform (projectconfig : Context) : Context :=
  projectconfig.map (fun kv => (kv.1, cookiecutterMarker kv.1))

/-- `DevOpsTemplate.cookiecutter` (template.py lines 100-168): write the
`cookiecutter.json` descriptor (a `json.dump` of the input configuration)
and the placeholder `README.md` at the session root, both subject to the
conflict check with `SkipFileError` caught and `FileExistsError`
propagated, create the placeholder-named project subdirectory, redirect the
project directory into it, and install all components with the transformed
marker context. -/
def cookiecutter (pkg : PkgTemplates) (t : DevOpsTemplate) (projectconfig : Context)
    (fs : FS) : Except (FS × DTErr) FS :=
  let cookiecutter_json_fpath := ospathJoin t.projectdir "cookiecutter.json"
  let step1 : Except (FS × DTErr) FS :=
    match checkProjectFile t fs cookiecutter_json_fpath with
    | CheckResult.skipFile => Except.ok fs
    | CheckResult.conflict => Except.error (fs, DTErr.targetExists cookiecutter_json_fpath)
    | CheckResult.proceed =>
      Except.ok (if t.dry_run then fs
                 else setFile fs cookiecutter_json_fpath (FileContent.json projectconfig))
  match step1 with
  | Except.error e => Except.error e
  | Except.ok fs1 =>
    let readme_fpath := ospathJoin t.projectdir "README.md"
    let step2 : Except (FS × DTErr) FS :=
      match checkProjectFile t fs1 readme_fpath with
      | CheckResult.skipFile => Except.ok fs1
      | CheckResult.conflict => Except.error (fs1, DTErr.targetExists readme_fpath)
      | CheckResult.proceed =>
        Except.ok (if t.dry_run then fs1
                   else setFile fs1 readme_fpath (FileContent.text "# Cookiecutter Template"))
    match step2 with
    | Except.error e => Except.error e
    | Except.ok fs2 =>
      let fs3 := mkdirOp t fs2 cookiecutterDirname
      let t' := { t with projectdir := ospathJoin t.projectdir cookiecutterDirname }
      let cookiecutterconfig := cookiecutterTransform projectconfig
      match installComponents pkg t' cookiecutterComponents cookiecutterconfig fs3 with
      | Except.error e => Except.error e
      | Except.ok (fs4, _) => Except.ok fs4

/-- The conflict-resolution decision procedure exactly as the specification
words it (spec section 4.3), to be compared with `checkProjectFile` from
the source: 1. path absent → proceed; 2. else skip flag → skip; 3. else
overwrite unset → fail; 4. else proceed. -/
def specCheckTarget (existsOnDisk skipFlag overwriteFlag : Bool) : CheckResult :=
  if existsOnDisk = false then CheckResult.proceed
  else if skipFlag = true then CheckResult.skipFile
  else if overwriteFlag = false then CheckResult.conflict
  else CheckResult.proceed

/-! ### Concrete test fixtures used by witnesses and counterexamples -/

/-- The empty filesystem. -/
def emptyFS : FS := { files := [], dirs := [] }

/-- Modelled from the spec: a concrete instance of the component catalog
(`template.json`, package data not part of the sources) — a mapping from
each component name used by the project operations to an ordered list of
path templates, as described in spec sections 3 and 6. -/
def sampleCatalog : List (String × List String) :=
  [("src", ["\x7b\x7bproject_slug\x7d\x7d/__init__.py"]),
   ("tests", ["tests/test_a.py"]),
   ("make", ["Makefile"]),
   ("setuptools", ["setup.py"]),
   ("docker", ["Dockerfile"]),
   ("git", [".gitignore"]),
   ("readme", ["README.md"]),
   ("sonar", ["sonar-project.properties"])]

/-- A matching set of bundled content templates for `sampleCatalog`. -/
def samplePkg : PkgTemplates :=
  [("\x7b\x7bproject_slug\x7d\x7d/__init__.py", [Tok.lit "ver"]),
   ("tests/test_a.py", [Tok.lit "test"]),
   ("Makefile", [Tok.lit "MK"]),
   ("setup.py", [Tok.lit "setup"]),
   ("Dockerfile", [Tok.lit "docker"]),
   (".gitignore", [Tok.lit "git"]),
   ("README.md", [Tok.var "project_name"]),
   ("sonar-project.properties", [Tok.lit "sonar"])]

/-- Modelled from the spec: a concrete stand-in for the companion build-file
rewriter (`MakefileTemplate` in `devopstemplate/makefile.py`, not part of
the sources) — it receives the variable-to-value mapping and patches the
variable assignment into the build file (spec section 6). -/
def sampleRewrite : List (String × String) → FileContent → FileContent :=
  fun var_value_dict c =>
    match c with
    | FileContent.text s =>
      FileContent.text
        (s ++ "\nDOCKERSONAR=" ++ ((lookupStr var_value_dict "DOCKERSONAR").getD ""))
    | c => c

/-- A create configuration enabling every optional component. -/
def sampleCreateConfig : CreateConfig :=
  { context := [("project_slug", "demo"), ("project_name", "Demo")]
    add_scripts_dir := true
    add_docs_dir := true
    no_gitignore_file := false
    no_readme_file := false
    no_sonar := false }

/-- A strict-mode session (no overwrite, no skip, no dry run). -/
def sampleSessionWet : DevOpsTemplate :=
  { projectdir := "proj", overwrite := false, skip := false, dry_run := false
    template_dict := sampleCatalog }

/-- A strict-mode dry-run session. -/
def sampleSessionDry : DevOpsTemplate :=
  { sampleSessionWet with dry_run := true }

/-- A dry-run session with the skip flag set. -/
def sampleSessionDrySkip : DevOpsTemplate :=
  { sampleSessionWet with dry_run := true, skip := true }

/-- A session with only the skip flag set. -/
def sampleSessionSkip : DevOpsTemplate :=
  { sampleSessionWet with skip := true }

/-- A filesystem that already contains an installed Makefile. -/
def makefileFS : FS :=
  { files := [("proj/Makefile", FileContent.text "MK0")], dirs := [] }

/-- A bundled template whose rendering fails mid-stream: a literal header
followed by an indexing expression on an undefined name. -/
def partialPkg : PkgTemplates :=
  [("partial.txt", [Tok.lit "# header\n", Tok.varIndex "missing"])]

/-- A bundled plain-code template (a Makefile) that prints a variable. -/
def escapePkg : PkgTemplates :=
  [("Makefile", [Tok.var "project_name"])]

/-- A bundled text template that prints a variable after a literal. -/
def unresolvedPkg : PkgTemplates :=
  [("greeting.txt", [Tok.lit "hello ", Tok.var "project_name"])]

/-- A cookiecutter input configuration, as in the spec's example. -/
def sampleCCConfig : Context :=
  [("project_name", "Demo"), ("project_slug", "demo")]

/-! ### Helper lemmas about the filesystem model -/

theorem lookupStr_some_mem {α : Type} {l : List (String × α)} {k : String} {v : α} :
    lookupStr l k = some v → k ∈ l.map Prod.fst := by
  induction l with
  | nil => intro h; simp [lookupStr] at h
  | cons kv rest ih =>
    intro h
    by_cases hk : kv.1 = k
    · simp [hk]
    · simp only [lookupStr, if_neg hk] at h
      simp [ih h]

theorem getFile_setFile_self (fs : FS) (p : String) (c : FileContent) :
    getFile (setFile fs p c) p = some c := by
  simp [getFile, setFile, lookupStr]

theorem getFile_setFile_ne (fs : FS) (p q : String) (c : FileContent) (h : p ≠ q) :
    getFile (setFile fs p c) q = getFile fs q := by
  simp [getFile, setFile, lookupStr, h]

theorem fsExists_setFile_mono (fs : FS) (p q : String) (c : FileContent)
    (h : fsExists fs q = true) : fsExists (setFile fs p c) q = true := by
  simp only [fsExists, setFile, List.any_cons, Bool.or_eq_true] at h ⊢
  rcases h with h | h
  · exact Or.inl (Or.inr h)
  · exact Or.inr h

theorem fsExists_setFile_self (fs : FS) (p : String) (c : FileContent) :
    fsExists (setFile fs p c) p = true := by
  simp [fsExists, setFile]

theorem makedirsFuel_files (n : Nat) (fs : FS) (p : String) :
    (makedirsFuel n fs p).files = fs.files := by
  induction n generalizing fs p with
  | zero => rfl
  | succ n ih =>
    simp only [makedirsFuel]
    split
    · exact ih fs (dirname p)
    · rfl

theorem makedirs_files (fs : FS) (p : String) :
    (makedirs fs p).files = fs.files :=
  makedirsFuel_files p.length fs p

theorem getFile_makedirs (fs : FS) (p q : String) :
    getFile (makedirs fs p) q = getFile fs q := by
  simp [getFile, makedirs_files]

theorem fsExists_makedirsFuel_mono (n : Nat) (fs : FS) (p q : String)
    (h : fsExists fs q = true) : fsExists (makedirsFuel n fs p) q = true := by
  induction n generalizing fs p with
  | zero =>
    simp only [makedirsFuel, fsExists, List.any_cons, Bool.or_eq_true] at h ⊢
    rcases h with h | h
    · exact Or.inl h
    · exact Or.inr (Or.inr h)
  | succ n ih =>
    simp only [makedirsFuel]
    have step : ∀ fs1 : FS, fsExists fs1 q = true →
        fsExists { fs1 with dirs := p :: fs1.dirs } q = true := by
      intro fs1 h1
      simp only [fsExists, List.any_cons, Bool.or_eq_true] at h1 ⊢
      rcases h1 with h1 | h1
      · exact Or.inl h1
      · exact Or.inr (Or.inr h1)
    split
    · exact step _ (ih fs (dirname p) h)
    · exact step _ h

theorem fsExists_makedirs_mono (fs : FS) (p q : String)
    (h : fsExists fs q = true) : fsExists (makedirs fs p) q = true :=
  fsExists_makedirsFuel_mono p.length fs p q h

theorem fsExists_makedirsFuel_self (n : Nat) (fs : FS) (p : String) :
    fsExists (makedirsFuel n fs p) p = true := by
  cases n with
  | zero => simp [makedirsFuel, fsExists]
  | succ n => simp only [makedirsFuel]; split <;> simp [fsExists]

theorem fsExists_makedirs_self (fs : FS) (p : String) :
    fsExists (makedirs fs p) p = true :=
  fsExists_makedirsFuel_self p.length fs p

theorem fsExists_mkdirOp (t : DevOpsTemplate) (fs : FS) (d : String)
    (hdry : t.dry_run = false) :
    fsExists (mkdirOp t fs d) (ospathJoin t.projectdir d) = true := by
  simp only [mkdirOp, hdry]
  by_cases hex : fsExists fs (ospathJoin t.projectdir d) = true
  · simp only [hex, if_true]
  · simp only [hex, Bool.false_eq_true, if_false, fsExists_makedirs_self]

theorem getFile_mkdirOp (t : DevOpsTemplate) (fs : FS) (d q : String) :
    getFile (mkdirOp t fs d) q = getFile fs q := by
  simp only [mkdirOp]
  by_cases hex : fsExists fs (ospathJoin t.projectdir d) = true
  · simp only [hex, if_true]
  · simp only [hex, Bool.false_eq_true, if_false]
    cases hdr : t.dry_run
    · simp only [Bool.false_eq_true, if_false, getFile_makedirs]
    · simp only [if_true]

/-! ### Helper lemmas about `renderFile` and the install loops -/

theorem renderFile_ok_mono (pkg : PkgTemplates) (t : DevOpsTemplate)
    (a b : String) (ctx : Context) (fs fs' : FS) (oc : Outcome) (q : String)
    (h : renderFile pkg t a b ctx fs = Except.ok (fs', oc))
    (hq : fsExists fs q = true) : fsExists fs' q = true := by
  simp only [renderFile] at h
  cases hpkg : lookupStr pkg a with
  | none => simp only [hpkg] at h; exact Except.noConfusion h
  | some toks =>
    simp only [hpkg] at h
    cases hcheck : checkProjectFile t fs (ospathJoin t.projectdir b) with
    | skipFile =>
      simp only [hcheck, Except.ok.injEq, Prod.mk.injEq] at h
      rw [← h.1]; exact hq
    | conflict => simp only [hcheck] at h; exact Except.noConfusion h
    | proceed =>
      simp only [hcheck] at h
      cases hdry : t.dry_run with
      | true =>
        simp only [hdry, if_true, Except.ok.injEq, Prod.mk.injEq] at h
        rw [← h.1]; exact hq
      | false =>
        simp only [hdry, Bool.false_eq_true, if_false] at h
        cases hstep : (streamRender (autoescapePolicy (some a)) ctx toks).2 with
        | some e => simp only [hstep] at h; exact Except.noConfusion h
        | none =>
          simp only [hstep, Except.ok.injEq, Prod.mk.injEq] at h
          rw [← h.1]
          apply fsExists_setFile_mono
          by_cases hpar : fsExists fs (dirname (ospathJoin t.projectdir b)) = true
          · rw [if_pos hpar]; exact hq
          · rw [if_neg hpar]; exact fsExists_makedirs_mono _ _ _ hq

theorem renderFile_ok_target (pkg : PkgTemplates) (t : DevOpsTemplate)
    (a b : String) (ctx : Context) (fs fs' : FS) (oc : Outcome)
    (h : renderFile pkg t a b ctx fs = Except.ok (fs', oc))
    (hdry : t.dry_run = false) :
    fsExists fs' (ospathJoin t.projectdir b) = true := by
  simp only [renderFile] at h
  cases hpkg : lookupStr pkg a with
  | none => simp only [hpkg] at h; exact Except.noConfusion h
  | some toks =>
    simp only [hpkg] at h
    cases hcheck : checkProjectFile t fs (ospathJoin t.projectdir b) with
    | skipFile =>
      -- the skip decision presupposes that the target path already exists
      simp only [hcheck, Except.ok.injEq, Prod.mk.injEq] at h
      rw [← h.1]
      unfold checkProjectFile at hcheck
      by_cases hex : (fsExists fs (ospathJoin t.projectdir b) && t.skip) = true
      · exact (Bool.and_eq_true _ _).mp hex |>.1
      · rw [if_neg hex] at hcheck
        split at hcheck <;> exact CheckResult.noConfusion hcheck
    | conflict => simp only [hcheck] at h; exact Except.noConfusion h
    | proceed =>
      simp only [hcheck, hdry, Bool.false_eq_true, if_false] at h
      cases hstep : (streamRender (autoescapePolicy (some a)) ctx toks).2 with
      | some e => simp only [hstep] at h; exact Except.noConfusion h
      | none =>
        simp only [hstep, Except.ok.injEq, Prod.mk.injEq] at h
        rw [← h.1]
        exact fsExists_setFile_self _ _ _

theorem renderFile_ok_getFile (pkg : PkgTemplates) (t : DevOpsTemplate)
    (a b : String) (ctx : Context) (fs fs' : FS) (oc : Outcome) (q : String)
    (h : renderFile pkg t a b ctx fs = Except.ok (fs', oc))
    (hq : ospathJoin t.projectdir b ≠ q) : getFile fs' q = getFile fs q := by
  simp only [renderFile] at h
  cases hpkg : lookupStr pkg a with
  | none => simp only [hpkg] at h; exact Except.noConfusion h
  | some toks =>
    simp only [hpkg] at h
    cases hcheck : checkProjectFile t fs (ospathJoin t.projectdir b) with
    | skipFile =>
      simp only [hcheck, Except.ok.injEq, Prod.mk.injEq] at h
      rw [← h.1]
    | conflict => simp only [hcheck] at h; exact Except.noConfusion h
    | proceed =>
      simp only [hcheck] at h
      cases hdry : t.dry_run with
      | true =>
        simp only [hdry, if_true, Except.ok.injEq, Prod.mk.injEq] at h
        rw [← h.1]
      | false =>
        simp only [hdry, Bool.false_eq_true, if_false] at h
        cases hstep : (streamRender (autoescapePolicy (some a)) ctx toks).2 with
        | some e => simp only [hstep] at h; exact Except.noConfusion h
        | none =>
          simp only [hstep, Except.ok.injEq, Prod.mk.injEq] at h
          rw [← h.1, getFile_setFile_ne _ _ _ _ hq]
          by_cases hpar : fsExists fs (dirname (ospathJoin t.projectdir b)) = true
          · rw [if_pos hpar]
          · rw [if_neg hpar]; exact getFile_makedirs _ _ _

theorem installFiles_ok_mono (pkg : PkgTemplates) (t : DevOpsTemplate) (ctx : Context)
    (files : List String) (fs fs' : FS) (ocs : List Outcome) (q : String)
    (h : installFiles pkg t ctx files fs = Except.ok (fs', ocs))
    (hq : fsExists fs q = true) : fsExists fs' q = true := by
  induction files generalizing fs fs' ocs with
  | nil =>
    simp only [installFiles, Except.ok.injEq, Prod.mk.injEq] at h
    rw [← h.1]; exact hq
  | cons f rest ih =>
    simp only [installFiles] at h
    cases hren : jinjaRenderString ctx f with
    | error e => simp only [hren] at h; exact Except.noConfusion h
    | ok pf =>
      simp only [hren] at h
      cases hrf : renderFile pkg t f pf ctx fs with
      | error e => simp only [hrf] at h; exact Except.noConfusion h
      | ok pr =>
        obtain ⟨fs1, oc⟩ := pr
        simp only [hrf] at h
        cases hrest : installFiles pkg t ctx rest fs1 with
        | error e => simp only [hrest] at h; exact Except.noConfusion h
        | ok pr2 =>
          obtain ⟨fs2, ocs2⟩ := pr2
          simp only [hrest, Except.ok.injEq, Prod.mk.injEq] at h
          rw [← h.1]
          exact ih fs1 fs2 ocs2 hrest (renderFile_ok_mono pkg t f pf ctx fs fs1 oc q hrf hq)

theorem installFiles_ok_getFile (pkg : PkgTemplates) (t : DevOpsTemplate) (ctx : Context)
    (files : List String) (fs fs' : FS) (ocs : List Outcome) (q : String)
    (h : installFiles pkg t ctx files fs = Except.ok (fs', ocs))
    (hq : ∀ r, ospathJoin t.projectdir r ≠ q) : getFile fs' q = getFile fs q := by
  induction files generalizing fs fs' ocs with
  | nil =>
    simp only [installFiles, Except.ok.injEq, Prod.mk.injEq] at h
    rw [← h.1]
  | cons f rest ih =>
    simp only [installFiles] at h
    cases hren : jinjaRenderString ctx f with
    | error e => simp only [hren] at h; exact Except.noConfusion h
    | ok pf =>
      simp only [hren] at h
      cases hrf : renderFile pkg t f pf ctx fs with
      | error e => simp only [hrf] at h; exact Except.noConfusion h
      | ok pr =>
        obtain ⟨fs1, oc⟩ := pr
        simp only [hrf] at h
        cases hrest : installFiles pkg t ctx rest fs1 with
        | error e => simp only [hrest] at h; exact Except.noConfusion h
        | ok pr2 =>
          obtain ⟨fs2, ocs2⟩ := pr2
          simp only [hrest, Except.ok.injEq, Prod.mk.injEq] at h
          rw [← h.1]
          rw [ih fs1 fs2 ocs2 hrest]
          exact renderFile_ok_getFile pkg t f pf ctx fs fs1 oc q hrf (hq pf)

theorem installFiles_ok_targets (pkg : PkgTemplates) (t : DevOpsTemplate) (ctx : Context)
    (files : List String) (fs fs' : FS) (ocs : List Outcome)
    (h : installFiles pkg t ctx files fs = Except.ok (fs', ocs))
    (hdry : t.dry_run = false) :
    ∀ f ∈ files, ∃ p, jinjaRenderString ctx f = Except.ok p ∧
      fsExists fs' (ospathJoin t.projectdir p) = true := by
  induction files generalizing fs fs' ocs with
  | nil => intro f hf; exact absurd hf (by simp)
  | cons g rest ih =>
    intro f hf
    simp only [installFiles] at h
    cases hren : jinjaRenderString ctx g with
    | error e => simp only [hren] at h; exact Except.noConfusion h
    | ok pf =>
      simp only [hren] at h
      cases hrf : renderFile pkg t g pf ctx fs with
      | error e => simp only [hrf] at h; exact Except.noConfusion h
      | ok pr =>
        obtain ⟨fs1, oc⟩ := pr
        simp only [hrf] at h
        cases hrest : installFiles pkg t ctx rest fs1 with
        | error e => simp only [hrest] at h; exact Except.noConfusion h
        | ok pr2 =>
          obtain ⟨fs2, ocs2⟩ := pr2
          simp only [hrest, Except.ok.injEq, Prod.mk.injEq] at h
          rcases List.mem_cons.mp hf with hfg | hfr
          · subst hfg
            refine ⟨pf, hren, ?_⟩
            rw [← h.1]
            exact installFiles_ok_mono pkg t ctx rest fs1 fs2 ocs2 _ hrest
              (renderFile_ok_target pkg t f pf ctx fs fs1 oc hrf hdry)
          · obtain ⟨p, hp1, hp2⟩ := ih fs1 fs2 ocs2 hrest f hfr
            refine ⟨p, hp1, ?_⟩
            rw [← h.1]; exact hp2

theorem installComponent_ok_mono (pkg : PkgTemplates) (t : DevOpsTemplate)
    (comp : String) (ctx : Context) (fs fs' : FS) (ocs : List Outcome) (q : String)
    (h : installComponent pkg t comp ctx fs = Except.ok (fs', ocs))
    (hq : fsExists fs q = true) : fsExists fs' q = true := by
  unfold installComponent at h
  cases hdict : lookupStr t.template_dict comp with
  | none => simp only [hdict] at h; exact Except.noConfusion h
  | some files =>
    simp only [hdict] at h
    exact installFiles_ok_mono pkg t ctx files fs fs' ocs q h hq

theorem installComponent_ok_getFile (pkg : PkgTemplates) (t : DevOpsTemplate)
    (comp : String) (ctx : Context) (fs fs' : FS) (ocs : List Outcome) (q : String)
    (h : installComponent pkg t comp ctx fs = Except.ok (fs', ocs))
    (hq : ∀ r, ospathJoin t.projectdir r ≠ q) : getFile fs' q = getFile fs q := by
  unfold installComponent at h
  cases hdict : lookupStr t.template_dict comp with
  | none => simp only [hdict] at h; exact Except.noConfusion h
  | some files =>
    simp only [hdict] at h
    exact installFiles_ok_getFile pkg t ctx files fs fs' ocs q h hq

theorem installComponents_ok_mono (pkg : PkgTemplates) (t : DevOpsTemplate)
    (comps : List String) (ctx : Context) (fs fs' : FS) (ocs : List Outcome) (q : String)
    (h : installComponents pkg t comps ctx fs = Except.ok (fs', ocs))
    (hq : fsExists fs q = true) : fsExists fs' q = true := by
  induction comps generalizing fs fs' ocs with
  | nil =>
    simp only [installComponents, Except.ok.injEq, Prod.mk.injEq] at h
    rw [← h.1]; exact hq
  | cons c rest ih =>
    simp only [installComponents] at h
    cases hc : installComponent pkg t c ctx fs with
    | error e => simp only [hc] at h; exact Except.noConfusion h
    | ok pr =>
      obtain ⟨fs1, ocs1⟩ := pr
      simp only [hc] at h
      cases hrest : installComponents pkg t rest ctx fs1 with
      | error e => simp only [hrest] at h; exact Except.noConfusion h
      | ok pr2 =>
        obtain ⟨fs2, ocs2⟩ := pr2
        simp only [hrest, Except.ok.injEq, Prod.mk.injEq] at h
        rw [← h.1]
        exact ih fs1 fs2 ocs2 hrest (installComponent_ok_mono pkg t c ctx fs fs1 ocs1 q hc hq)

theorem installComponents_ok_getFile (pkg : PkgTemplates) (t : DevOpsTemplate)
    (comps : List String) (ctx : Context) (fs fs' : FS) (ocs : List Outcome) (q : String)
    (h : installComponents pkg t comps ctx fs = Except.ok (fs', ocs))
    (hq : ∀ r, ospathJoin t.projectdir r ≠ q) : getFile fs' q = getFile fs q := by
  induction comps generalizing fs fs' ocs with
  | nil =>
    simp only [installComponents, Except.ok.injEq, Prod.mk.injEq] at h
    rw [← h.1]
  | cons c rest ih =>
    simp only [installComponents] at h
    cases hc : installComponent pkg t c ctx fs with
    | error e => simp only [hc] at h; exact Except.noConfusion h
    | ok pr =>
      obtain ⟨fs1, ocs1⟩ := pr
      simp only [hc] at h
      cases hrest : installComponents pkg t rest ctx fs1 with
      | error e => simp only [hrest] at h; exact Except.noConfusion h
      | ok pr2 =>
        obtain ⟨fs2, ocs2⟩ := pr2
        simp only [hrest, Except.ok.injEq, Prod.mk.injEq] at h
        rw [← h.1]
        rw [ih fs1 fs2 ocs2 hrest]
        exact installComponent_ok_getFile pkg t c ctx fs fs1 ocs1 q hc hq

theorem installComponents_ok_targets (pkg : PkgTemplates) (t : DevOpsTemplate)
    (comps : List String) (ctx : Context) (fs fs' : FS) (ocs : List Outcome)
    (h : installComponents pkg t comps ctx fs = Except.ok (fs', ocs))
    (hdry : t.dry_run = false) :
    ∀ c ∈ comps, ∀ files, lookupStr t.template_dict c = some files →
      ∀ f ∈ files, ∃ p, jinjaRenderString ctx f = Except.ok p ∧
        fsExists fs' (ospathJoin t.projectdir p) = true := by
  induction comps generalizing fs fs' ocs with
  | nil => intro c hc; exact absurd hc (by simp)
  | cons c0 rest ih =>
    intro c hc files hfiles f hf
    simp only [installComponents] at h
    cases hc0 : installComponent pkg t c0 ctx fs with
    | error e => simp only [hc0] at h; exact Except.noConfusion h
    | ok pr =>
      obtain ⟨fs1, ocs1⟩ := pr
      simp only [hc0] at h
      cases hrest : installComponents pkg t rest ctx fs1 with
      | error e => simp only [hrest] at h; exact Except.noConfusion h
      | ok pr2 =>
        obtain ⟨fs2, ocs2⟩ := pr2
        simp only [hrest, Except.ok.injEq, Prod.mk.injEq] at h
        rcases List.mem_cons.mp hc with hcc | hcr
        · subst hcc
          unfold installComponent at hc0
          rw [hfiles] at hc0
          obtain ⟨p, hp1, hp2⟩ :=
            installFiles_ok_targets pkg t ctx files fs fs1 ocs1 hc0 hdry f hf
          refine ⟨p, hp1, ?_⟩
          rw [← h.1]
          exact installComponents_ok_mono pkg t rest ctx fs1 fs2 ocs2 _ hrest hp2
        · obtain ⟨p, hp1, hp2⟩ := ih fs1 fs2 ocs2 hrest c hcr files hfiles f hf
          refine ⟨p, hp1, ?_⟩
          rw [← h.1]; exact hp2

theorem fsExists_setFile_of_ne (fs : FS) (p q : String) (c : FileContent) (h : p ≠ q) :
    fsExists (setFile fs p c) q = fsExists fs q := by
  simp [fsExists, setFile, List.any_cons, h]

theorem lookupStr_cookiecutterTransform (cfg : Context) (k v : String)
    (h : lookupStr cfg k = some v) :
    lookupStr (cookiecutterTransform cfg) k = some (cookiecutterMarker k) := by
  induction cfg with
  | nil => simp [lookupStr] at h
  | cons kv rest ih =>
    by_cases hk : kv.1 = k
    · simp [cookiecutterTransform, lookupStr, hk]
    · simp only [lookupStr, if_neg hk] at h
      simp only [cookiecutterTransform, List.map_cons, lookupStr, if_neg hk]
      exact ih h

theorem installFiles_skip_all (pkg : PkgTemplates) (t : DevOpsTemplate) (ctx : Context)
    (hskip : t.skip = true) :
    ∀ (files : List String) (fs : FS),
      (∀ f ∈ files, ∃ toks, lookupStr pkg f = some toks) →
      (∀ f ∈ files, ∃ p, jinjaRenderString ctx f = Except.ok p ∧
        fsExists fs (ospathJoin t.projectdir p) = true) →
      installFiles pkg t ctx files fs =
        Except.ok (fs, files.map (fun _ => Outcome.skipped)) := by
  intro files
  induction files with
  | nil => intro fs _ _; simp [installFiles]
  | cons f rest ih =>
    intro fs hp hex
    obtain ⟨toks, htoks⟩ := hp f (by simp)
    obtain ⟨p, hp1, hp2⟩ := hex f (by simp)
    simp only [installFiles, hp1]
    have hcheck : checkProjectFile t fs (ospathJoin t.projectdir p) =
        CheckResult.skipFile := by
      unfold checkProjectFile
      rw [hp2, hskip]
      simp
    simp only [renderFile, htoks, hcheck]
    rw [ih fs (fun g hg => hp g (by simp [hg])) (fun g hg => hex g (by simp [hg]))]
    simp

/-! ### Claim theorems -/

/-- Claim C1: for every target path and session, the conflict check follows
exactly the specified decision order — absent path proceeds; else skip flag
skips; else unset overwrite fails with `TargetExists`; else proceed — and in
particular, for a session with the skip flag set, every existing path is
skipped no matter how the overwrite flag is set. -/
theorem checkProjectFile_decision_order :
    (∀ (t : DevOpsTemplate) (fs : FS) (p : String),
      checkProjectFile t fs p = specCheckTarget (fsExists fs p) t.skip t.overwrite)
    ∧ (∀ (pd : String) (ow dr : Bool) (td : List (String × List String))
        (fs : FS) (p : String),
      checkProjectFile ⟨pd, ow, true, dr, td⟩ fs p =
        if fsExists fs p then CheckResult.skipFile else CheckResult.proceed) := by
  constructor
  · intro t fs p
    cases hex : fsExists fs p <;> cases hsk : t.skip <;> cases how : t.overwrite <;>
      simp [checkProjectFile, specCheckTarget, hex, hsk, how]
  · intro pd ow dr td fs p
    cases hex : fsExists fs p <;> simp [checkProjectFile, hex]

/-- Claim C9: a component name absent from the catalog makes `__install`
fail with the `KeyError` (`UnknownComponent`) before any filesystem side
effect: the error carries the input filesystem unchanged. -/
theorem installComponent_unknown_no_side_effects
    (pkg : PkgTemplates) (t : DevOpsTemplate) (name : String) (ctx : Context) (fs : FS)
    (h : lookupStr t.template_dict name = none) :
    installComponent pkg t name ctx fs =
      Except.error (fs, DTErr.unknownComponent name) := by
  unfold installComponent
  rw [h]

/-- Witness for C9 at a concrete unknown component name. -/
theorem installComponent_unknown_no_side_effects_witness :
    installComponent samplePkg sampleSessionWet "nosuchcomponent" [] emptyFS =
      Except.error (emptyFS, DTErr.unknownComponent "nosuchcomponent") :=
  installComponent_unknown_no_side_effects samplePkg sampleSessionWet
    "nosuchcomponent" [] emptyFS (by decide)

/-- Claim C7: re-running an install over a populated target with both the
overwrite and skip flags off fails with `TargetExists` on the first
colliding path, and the error state is exactly the input filesystem (zero
additional writes). -/
theorem reinstall_strict_fails_target_exists
    (pkg : PkgTemplates) (t : DevOpsTemplate) (name f : String) (rest : List String)
    (ctx : Context) (toks : List Tok) (pf : String) (fs : FS)
    (hskip : t.skip = false) (hov : t.overwrite = false)
    (hcomp : lookupStr t.template_dict name = some (f :: rest))
    (hpkg : lookupStr pkg f = some toks)
    (hren : jinjaRenderString ctx f = Except.ok pf)
    (hex : fsExists fs (ospathJoin t.projectdir pf) = true) :
    installComponent pkg t name ctx fs =
      Except.error (fs, DTErr.targetExists (ospathJoin t.projectdir pf)) := by
  unfold installComponent
  rw [hcomp]
  simp only [installFiles, hren]
  have hcheck : checkProjectFile t fs (ospathJoin t.projectdir pf) =
      CheckResult.conflict := by
    unfold checkProjectFile
    rw [hex, hskip, hov]
    simp
  simp only [renderFile, hpkg, hcheck]

/-- Witness for C7: a second strict-mode install of the `make` component
into a directory that already holds the Makefile. -/
theorem reinstall_strict_fails_target_exists_witness :
    installComponent samplePkg sampleSessionWet "make" [] makefileFS =
      Except.error (makefileFS, DTErr.targetExists (ospathJoin "proj" "Makefile")) :=
  reinstall_strict_fails_target_exists samplePkg sampleSessionWet "make" "Makefile" []
    [] [Tok.lit "MK"] "Makefile" makefileFS rfl rfl (by decide) (by decide) rfl (by decide)

/-- Claim C8: re-running an install with the skip flag set over targets that
all exist performs zero writes and raises zero errors: the run succeeds,
every per-file outcome is `skipped`, and the resulting filesystem is the
input filesystem, byte for byte. -/
theorem reinstall_skip_no_writes_no_errors
    (pkg : PkgTemplates) (t : DevOpsTemplate) (name : String) (ctx : Context)
    (fs : FS) (files : List String)
    (hskip : t.skip = true)
    (hcomp : lookupStr t.template_dict name = some files)
    (hp : ∀ f ∈ files, ∃ toks, lookupStr pkg f = some toks)
    (hex : ∀ f ∈ files, ∃ p, jinjaRenderString ctx f = Except.ok p ∧
      fsExists fs (ospathJoin t.projectdir p) = true) :
    installComponent pkg t name ctx fs =
      Except.ok (fs, files.map (fun _ => Outcome.skipped)) := by
  unfold installComponent
  rw [hcomp]
  exact installFiles_skip_all pkg t ctx hskip files fs hp hex

/-- Witness for C8: re-installing the `make` component with skip enabled
over a directory that already holds the Makefile. -/
theorem reinstall_skip_no_writes_no_errors_witness :
    installComponent samplePkg sampleSessionSkip "make" [] makefileFS =
      Except.ok (makefileFS, [Outcome.skipped]) :=
  reinstall_skip_no_writes_no_errors samplePkg sampleSessionSkip "make" [] makefileFS
    ["Makefile"] rfl (by decide)
    (by intro f hf
        rw [List.mem_singleton] at hf
        subst hf
        exact ⟨[Tok.lit "MK"], by decide⟩)
    (by intro f hf
        rw [List.mem_singleton] at hf
        subst hf
        exact ⟨"Makefile", rfl, by decide⟩)

/-- Claim C10: constructing a session itself touches the filesystem — the
constructor records the configuration and then ensures a directory exists
at the path obtained by joining the project directory with itself
(`self.__mkdir(projectdirectory)` after `self.__projectdir` was set to the
same value), creating it with parents when absent unless dry-run is set,
and leaving the filesystem untouched when it already exists. -/
theorem init_ensures_base_directory :
    ∀ (pd : String) (ow sk dr : Bool) (td : List (String × List String)) (fs : FS),
      devOpsTemplateInit pd ow sk dr td fs =
        (⟨pd, ow, sk, dr, td⟩,
          if fsExists fs (ospathJoin pd pd) then fs
          else if dr then fs
          else makedirs fs (ospathJoin pd pd)) := by
  intro pd ow sk dr td fs
  rfl

/-- Counterexample to claim C2: rendering a path template and a content
template that reference a variable absent from the context does not fail
with an `UnresolvedVariable` error — it silently substitutes the empty
string.  The environment is built without `StrictUndefined`, so Jinja2's
default `Undefined` prints as the empty string: the path template
`\x7b\x7bproject_slug\x7d\x7d/__init__.py` renders to `/__init__.py`
against an empty context, and a content render with a missing variable
succeeds and writes the variable's position as the empty string. -/
theorem render_unresolved_silent_empty_cex :
    jinjaRenderString [] "\x7b\x7bproject_slug\x7d\x7d/__init__.py" =
      Except.ok "/__init__.py" ∧
    renderFile unresolvedPkg sampleSessionWet "greeting.txt" "greeting.txt" [] emptyFS =
      Except.ok
        ({ files := [("proj/greeting.txt", FileContent.text "hello ")], dirs := ["proj"] },
          Outcome.written) :=
  ⟨rfl, rfl⟩

/-- Claim C2 amended: a variable name absent from the context renders as
the empty string and the render call succeeds (Jinja2 default `Undefined`);
only an operation on the unresolved name (such as indexing) raises. -/
theorem render_unresolved_yields_empty (esc : Bool) (ctx : Context) (n : String)
    (h : lookupStr ctx n = none) :
    evalTok esc ctx (Tok.var n) = Except.ok "" ∧
    streamRender esc ctx [Tok.var n] = ("", none) := by
  constructor
  · simp [evalTok, h]
  · simp only [streamRender, evalTok, h]
    decide

/-- Witness for the amended C2 at a concrete unresolved name. -/
theorem render_unresolved_yields_empty_witness :
    evalTok true [] (Tok.var "project_name") = Except.ok "" ∧
    streamRender true [] [Tok.var "project_name"] = ("", none) :=
  render_unresolved_yields_empty true [] "project_name" rfl

/-- Counterexample to claim C4: a content render into a destination file is
not atomic.  `__render` opens the target with mode `'w'` and streams the
rendered chunks directly into it; when rendering fails mid-stream (here: an
indexing expression on an undefined name after a literal header), the
operation errors and the partially rendered prefix `"# header\n"` is left
behind at the final destination path. -/
theorem render_error_partial_file_cex :
    renderFile partialPkg sampleSessionWet "partial.txt" "partial.txt" [] emptyFS =
      Except.error
        ({ files := [("proj/partial.txt", FileContent.text "# header\n")], dirs := ["proj"] },
          DTErr.undefinedVariable "missing") ∧
    getFile { files := [("proj/partial.txt", FileContent.text "# header\n")],
              dirs := ["proj"] } "proj/partial.txt" =
      some (FileContent.text "# header\n") ∧
    "# header\n" ≠ "" :=
  ⟨rfl, rfl, by decide⟩

/-- Claim C4 amended: rendering streams output directly into the
destination file, so on a mid-render error the operation fails and exactly
the prefix produced before the failing chunk is left at the final
destination path (no staged write; prior content at the path is lost). -/
theorem render_error_leaves_partial_output
    (pkg : PkgTemplates) (t : DevOpsTemplate) (a b : String) (ctx : Context)
    (toks : List Tok) (out : String) (e : DTErr) (fs : FS)
    (hpkg : lookupStr pkg a = some toks)
    (hdry : t.dry_run = false)
    (hex : fsExists fs (ospathJoin t.projectdir b) = false)
    (hstream : streamRender (autoescapePolicy (some a)) ctx toks = (out, some e)) :
    ∃ fs', renderFile pkg t a b ctx fs = Except.error (fs', e) ∧
      getFile fs' (ospathJoin t.projectdir b) = some (FileContent.text out) := by
  simp only [renderFile, hpkg]
  have hcheck : checkProjectFile t fs (ospathJoin t.projectdir b) =
      CheckResult.proceed := by
    unfold checkProjectFile
    rw [hex]
    simp
  simp only [hcheck, hdry, Bool.false_eq_true, if_false, hstream]
  exact ⟨_, rfl, getFile_setFile_self _ _ _⟩

/-- Witness for the amended C4 at the concrete failing template. -/
theorem render_error_leaves_partial_output_witness :
    ∃ fs', renderFile partialPkg sampleSessionWet "partial.txt" "partial.txt" [] emptyFS =
        Except.error (fs', DTErr.undefinedVariable "missing") ∧
      getFile fs' (ospathJoin "proj" "partial.txt") =
        some (FileContent.text "# header\n") :=
  render_error_leaves_partial_output partialPkg sampleSessionWet "partial.txt"
    "partial.txt" [] [Tok.lit "# header\n", Tok.varIndex "missing"] "# header\n"
    (DTErr.undefinedVariable "missing") emptyFS rfl rfl rfl rfl

/-- Counterexample to claim C5: autoescaping is not restricted to markup
templates.  The environment's policy (`select_autoescape(default=True)`)
returns `true` for the plain code template name `Makefile`, and rendering
that template HTML-escapes the variable output: the value `a<b` reaches the
file as `a&lt;b`. -/
theorem autoescape_code_template_cex :
    autoescapePolicy (some "Makefile") = true ∧
    renderFile escapePkg sampleSessionWet "Makefile" "Makefile"
      [("project_name", "a<b")] emptyFS =
      Except.ok
        ({ files := [("proj/Makefile", FileContent.text "a&lt;b")], dirs := ["proj"] },
          Outcome.written) ∧
    htmlEscape "a<b" ≠ "a<b" :=
  ⟨rfl, rfl, by decide⟩

/-- Claim C5 amended: the renderer applies one blanket escaping policy —
`select_autoescape` is configured with `default=True` and no disabled
extensions, so the autoescape decision is `true` for every template name
(markup or not) and for string templates alike. -/
theorem autoescape_all_templates :
    ∀ templateName : Option String, autoescapePolicy templateName = true := by
  intro tn
  cases tn with
  | none => rfl
  | some n =>
    simp only [autoescapePolicy, selectAutoescape]
    split
    · rfl
    · simp

/-- Claim C3 (a `dry_run` divergence in the code): the final
`__configure_makefile` step of `create` ignores the dry-run flag.
(i) A dry run of `create` over an empty project directory reaches that step
with nothing installed and crashes with `FileNotFoundError` on
`proj/Makefile` — the error state is the untouched input filesystem — while
(ii) the same `create` without dry-run succeeds; and (iii) a dry run over a
directory that already holds a Makefile (skip flag set so the conflict
check passes) returns successfully but has rewritten the Makefile on disk,
a write that a dry run must not perform. -/
theorem create_dry_run_configure_makefile_divergence :
    create sampleRewrite samplePkg sampleSessionDry sampleCreateConfig emptyFS =
      Except.error (emptyFS, DTErr.makefileMissing "proj/Makefile") ∧
    (∃ fsW ocs,
      create sampleRewrite samplePkg sampleSessionWet sampleCreateConfig emptyFS =
        Except.ok (fsW, ocs)) ∧
    (∃ fs' ocs,
      create sampleRewrite samplePkg sampleSessionDrySkip sampleCreateConfig makefileFS =
        Except.ok (fs', ocs) ∧
      getFile fs' "proj/Makefile" ≠ getFile makefileFS "proj/Makefile") :=
  ⟨rfl, ⟨_, _, rfl⟩, ⟨_, _, rfl, by decide⟩⟩

/-- Claim C6: on a fresh root, `cookiecutter` writes the descriptor file
whose deserialised content is exactly the input configuration, writes the
placeholder readme, creates the subdirectory literally named with the
`project_slug` placeholder, and installs every catalog component using the
transformed context in which every configuration value is replaced by the
marker embedding its own key.  The path-disjointness hypotheses `hne1`,
`hne2` record that install targets (rooted under the placeholder
subdirectory) never alias the two root files. -/
theorem cookiecutter_generates_template
    (pkg : PkgTemplates) (t : DevOpsTemplate) (cfg : Context) (fs fs' : FS)
    (hdry : t.dry_run = false)
    (hj : fsExists fs (ospathJoin t.projectdir "cookiecutter.json") = false)
    (hr : fsExists fs (ospathJoin t.projectdir "README.md") = false)
    (hne0 : ospathJoin t.projectdir "cookiecutter.json" ≠
      ospathJoin t.projectdir "README.md")
    (hkeys : ∀ c ∈ t.template_dict.map Prod.fst, c ∈ cookiecutterComponents)
    (hne1 : ∀ r, ospathJoin (ospathJoin t.projectdir cookiecutterDirname) r ≠
      ospathJoin t.projectdir "cookiecutter.json")
    (hne2 : ∀ r, ospathJoin (ospathJoin t.projectdir cookiecutterDirname) r ≠
      ospathJoin t.projectdir "README.md")
    (hok : cookiecutter pkg t cfg fs = Except.ok fs') :
    jsonLoadFile fs' (ospathJoin t.projectdir "cookiecutter.json") = some cfg ∧
    getFile fs' (ospathJoin t.projectdir "README.md") =
      some (FileContent.text "# Cookiecutter Template") ∧
    fsExists fs' (ospathJoin t.projectdir cookiecutterDirname) = true ∧
    (∀ k v, lookupStr cfg k = some v →
      lookupStr (cookiecutterTransform cfg) k = some (cookiecutterMarker k)) ∧
    (∀ c files, lookupStr t.template_dict c = some files →
      ∀ f ∈ files, ∃ p,
        jinjaRenderString (cookiecutterTransform cfg) f = Except.ok p ∧
        fsExists fs' (ospathJoin (ospathJoin t.projectdir cookiecutterDirname) p) = true) := by
  have hcheck1 : checkProjectFile t fs (ospathJoin t.projectdir "cookiecutter.json") =
      CheckResult.proceed := by
    unfold checkProjectFile
    rw [hj]
    simp
  simp only [cookiecutter, hcheck1, hdry, Bool.false_eq_true, if_false] at hok
  have hr1 : fsExists
      (setFile fs (ospathJoin t.projectdir "cookiecutter.json") (FileContent.json cfg))
      (ospathJoin t.projectdir "README.md") = false := by
    rw [fsExists_setFile_of_ne _ _ _ _ hne0]
    exact hr
  have hcheck2 : checkProjectFile t
      (setFile fs (ospathJoin t.projectdir "cookiecutter.json") (FileContent.json cfg))
      (ospathJoin t.projectdir "README.md") = CheckResult.proceed := by
    unfold checkProjectFile
    rw [hr1]
    simp
  simp only [hcheck2] at hok
  cases hic : installComponents pkg
      { projectdir := ospathJoin t.projectdir cookiecutterDirname, overwrite := t.overwrite,
        skip := t.skip, dry_run := false, template_dict := t.template_dict }
      cookiecutterComponents (cookiecutterTransform cfg)
      (mkdirOp t
        (setFile
          (setFile fs (ospathJoin t.projectdir "cookiecutter.json") (FileContent.json cfg))
          (ospathJoin t.projectdir "README.md") (FileContent.text "# Cookiecutter Template"))
        cookiecutterDirname) with
  | error e =>
    rw [hic] at hok
    exact Except.noConfusion hok
  | ok pr =>
    obtain ⟨fs4, ocs⟩ := pr
    rw [hic] at hok
    simp only [Except.ok.injEq] at hok
    subst hok
    refine ⟨?_, ?_, ?_, ?_, ?_⟩
    · -- the descriptor file deserialises to the input configuration
      unfold jsonLoadFile
      rw [installComponents_ok_getFile _ _ _ _ _ _ _ _ hic hne1]
      rw [getFile_mkdirOp]
      rw [getFile_setFile_ne _ _ _ _ (Ne.symm hne0)]
      rw [getFile_setFile_self]
      rfl
    · -- the placeholder readme is present
      rw [installComponents_ok_getFile _ _ _ _ _ _ _ _ hic hne2]
      rw [getFile_mkdirOp]
      rw [getFile_setFile_self]
    · -- the placeholder-named project subdirectory exists
      exact installComponents_ok_mono _ _ _ _ _ _ _ _ hic (fsExists_mkdirOp t _ _ hdry)
    · -- the transformed context replaces every value by its key's marker
      intro k v hkv
      exact lookupStr_cookiecutterTransform cfg k v hkv
    · -- every catalog component's files are installed under the new root
      intro c files hfiles f hf
      have hcmem : c ∈ cookiecutterComponents := hkeys c (lookupStr_some_mem hfiles)
      exact installComponents_ok_targets _ _ _ _ _ _ _ hic rfl c hcmem files hfiles f hf

/-- Path-disjointness fact for the C6 witness: no install target under the
placeholder subdirectory of `proj` aliases `proj/cookiecutter.json`. -/
theorem sample_cc_ne1 :
    ∀ r, ospathJoin (ospathJoin "proj" cookiecutterDirname) r ≠
      ospathJoin "proj" "cookiecutter.json" := by
  intro r
  show ospathJoin "proj/\x7b\x7bcookiecutter.project_slug\x7d\x7d/" r ≠
    "proj/cookiecutter.json"
  unfold ospathJoin
  by_cases hab : strStartsWith r "/" = true
  · rw [if_pos hab]
    intro hEq
    rw [hEq] at hab
    exact absurd hab (by decide)
  · rw [if_neg hab, if_neg (by decide), if_pos (by decide)]
    intro hEq
    have hlen := congrArg String.length hEq
    rw [String.length_append] at hlen
    rw [show ("proj/\x7b\x7bcookiecutter.project_slug\x7d\x7d/").length = 35 from rfl] at hlen
    rw [show ("proj/cookiecutter.json").length = 22 from rfl] at hlen
    omega

/-- Path-disjointness fact for the C6 witness: no install target under the
placeholder subdirectory of `proj` aliases `proj/README.md`. -/
theorem sample_cc_ne2 :
    ∀ r, ospathJoin (ospathJoin "proj" cookiecutterDirname) r ≠
      ospathJoin "proj" "README.md" := by
  intro r
  show ospathJoin "proj/\x7b\x7bcookiecutter.project_slug\x7d\x7d/" r ≠ "proj/README.md"
  unfold ospathJoin
  by_cases hab : strStartsWith r "/" = true
  · rw [if_pos hab]
    intro hEq
    rw [hEq] at hab
    exact absurd hab (by decide)
  · rw [if_neg hab, if_neg (by decide), if_pos (by decide)]
    intro hEq
    have hlen := congrArg String.length hEq
    rw [String.length_append] at hlen
    rw [show ("proj/\x7b\x7bcookiecutter.project_slug\x7d\x7d/").length = 35 from rfl] at hlen
    rw [show ("proj/README.md").length = 14 from rfl] at hlen
    omega

/-- Witness for C6: a concrete cookiecutter run over the sample catalog and
configuration `project_name = Demo`. -/
theorem cookiecutter_generates_template_witness :
    ∃ fs',
      jsonLoadFile fs' (ospathJoin "proj" "cookiecutter.json") = some sampleCCConfig ∧
      getFile fs' (ospathJoin "proj" "README.md") =
        some (FileContent.text "# Cookiecutter Template") ∧
      fsExists fs' (ospathJoin "proj" cookiecutterDirname) = true ∧
      (∀ k v, lookupStr sampleCCConfig k = some v →
        lookupStr (cookiecutterTransform sampleCCConfig) k =
          some (cookiecutterMarker k)) ∧
      (∀ c files, lookupStr sampleCatalog c = some files →
        ∀ f ∈ files, ∃ p,
          jinjaRenderString (cookiecutterTransform sampleCCConfig) f = Except.ok p ∧
          fsExists fs' (ospathJoin (ospathJoin "proj" cookiecutterDirname) p) = true) :=
  ⟨_, cookiecutter_generates_template samplePkg sampleSessionWet sampleCCConfig emptyFS _
    rfl rfl rfl (by decide) (by decide) sample_cc_ne1 sample_cc_ne2 rfl⟩

end DevOpsTemplateSpec
